import Mathlib

/-!
Shallow embedding of the disk-layout planning core of archinstall
(`src/archinstall/lib/user_interaction/disk_conf.py`): the boot-partition
sizing policy, `suggest_single_disk_layout` and `suggest_multi_disk_layout`.
The `disk` value-type module (`Size`, `Unit`, device/partition models) is not
among the shown sources, so those types are modelled from the specification
(spec §3): a `Percent` size stores the byte count of its reference total,
resolved once at construction; ordering, subtraction and minimum act on
normalized byte counts.  External prompting is modelled by passing the
collaborator's answers in up front and returning the ordered list of prompts
the planner issued.
-/

namespace Disk

/-- Modelled from the spec: the `disk.Unit` enumeration as used by the shown
planning code: plain bytes, binary-prefixed MiB and GiB, and the special
`Percent` unit resolved against a caller-supplied reference total. -/
inductive Unit where
  | B
  | MiB
  | GiB
  | Percent
deriving DecidableEq, Repr

/-- Modelled from the spec: `disk.Size`. A quantity `value` in `unit`; for a
`Percent` size, `total_bytes` holds the byte count of the caller-supplied
reference total, resolved once at construction (spec §3). -/
structure Size where
  value : Nat
  unit : Unit
  total_bytes : Option Nat := none
deriving DecidableEq, Repr

/-- Modelled from the spec: normalization of a `Size` to bytes (binary
prefixes; a `Percent` size is `value` percent of its stored reference
total). -/
def Size.toBytes : Size → Nat
  | ⟨v, .B, _⟩ => v
  | ⟨v, .MiB, _⟩ => v * 1048576
  | ⟨v, .GiB, _⟩ => v * 1073741824
  | ⟨v, .Percent, t⟩ => v * t.getD 0 / 100

/-- Modelled from the spec: construction of a `Percent` size against a
reference total (`disk.Size(v, Unit.Percent, total_size=ref)`): the reference
is resolved to a byte count at construction time (spec §3). -/
def Size.percent (v : Nat) (ref : Size) : Size :=
  ⟨v, .Percent, some ref.toBytes⟩

/-- Modelled from the spec: ordering on sizes compares normalized byte
counts. -/
def Size.le (a b : Size) : Bool := a.toBytes ≤ b.toBytes

/-- Modelled from the spec: Python `min` over two sizes under the byte-count
ordering; the first argument wins ties, as Python's `min` does. -/
def Size.min (a b : Size) : Size := if a.toBytes ≤ b.toBytes then a else b

/-- Modelled from the spec: signed subtraction of sizes in bytes, the score
`total_size − 20 GiB` of spec §4.3 step 2, which "may be negative". -/
def Size.delta (a b : Size) : Int := (a.toBytes : Int) - (b.toBytes : Int)

/-- Filesystem types offered by `ask_for_main_filesystem_format`
(disk_conf.py:192) plus `Fat32`, used for the boot partition. -/
inductive FilesystemType where
  | Btrfs
  | Ext4
  | Xfs
  | F2fs
  | Ntfs
  | Fat32
deriving DecidableEq, Repr

/-- Partition status; the planning core only ever creates partitions. -/
inductive ModificationStatus where
  | Create
deriving DecidableEq, Repr

/-- Partition type; the planners only produce primary partitions. -/
inductive PartitionType where
  | Primary
deriving DecidableEq, Repr

/-- Partition flags used by the planners. -/
inductive PartitionFlag where
  | Boot
deriving DecidableEq, Repr

/-- Modelled from the spec: a subvolume mapping `{name, mountpoint}` (spec §3);
paths are modelled as strings. -/
structure SubvolumeModification where
  name : String
  mountpoint : String
deriving DecidableEq, Repr

/-- Modelled from the spec: a planned partition (spec §3); paths are modelled
as strings, and the defaults (`mount_options = []`, no flags, no subvolumes)
match the `PartitionModification` constructor calls in disk_conf.py. -/
structure PartitionModification where
  status : ModificationStatus
  type : PartitionType
  start : Size
  length : Size
  mountpoint : Option String := none
  fs_type : FilesystemType
  mount_options : List String := []
  flags : List PartitionFlag := []
  btrfs_subvols : List SubvolumeModification := []
deriving DecidableEq, Repr

/-- Modelled from the spec: a block device (`disk.BDevice`), flattened to its
identity path and total size (the planners read `device.device_info.path` and
`device.device_info.total_size` only). -/
structure BDevice where
  path : String
  total_size : Size
deriving DecidableEq, Repr

/-- Modelled from the spec: a `disk.DeviceModification`: the device, the wipe
flag, and the ordered partitions accumulated by `add_partition`. -/
structure DeviceModification where
  device : BDevice
  wipe : Bool
  partitions : List PartitionModification := []
deriving DecidableEq, Repr

/-- Prompts issued to the external prompting collaborator by the planners,
recorded in source order; `capacityAdvisory` is the capacity-advisory display
of `suggest_multi_disk_layout` (disk_conf.py:343-347). -/
inductive PromptEvent where
  | askFilesystem
  | askSubvolumes
  | askCompression
  | askSeparateHome
  | capacityAdvisory
deriving DecidableEq, Repr

/-- Resolved answers the external prompting collaborator would return, supplied
up front so that the planners are pure functions of their inputs (spec §5,
§6). -/
structure PromptAnswers where
  fs_choice : FilesystemType
  subvolumes_answer : Bool
  compression_answer : Bool
  home_answer : Bool
deriving DecidableEq, Repr

/-- Embedding of `_boot_partition` (disk_conf.py:172-189): boot-partition
sizing per firmware mode, FAT32, mounted at `/boot`, boot flag set. -/
def _boot_partition (has_uefi : Bool) : PartitionModification :=
  let start := if has_uefi then Size.mk 1 .MiB none else Size.mk 3 .MiB none
  let size := if has_uefi then Size.mk 512 .MiB none else Size.mk 203 .MiB none
  { status := .Create,
    type := .Primary,
    start := start,
    length := size,
    mountpoint := some "/boot",
    fs_type := .Fat32,
    flags := [.Boot] }

/-- Resolution of the optional filesystem argument: when the caller passed
none, `ask_for_main_filesystem_format` supplies the choice
(disk_conf.py:214-215, 326-327). -/
def resolved_fs (ans : PromptAnswers) (filesystem_type : Option FilesystemType) :
    FilesystemType :=
  filesystem_type.getD ans.fs_choice

/-- Flag `using_subvolumes` of `suggest_single_disk_layout`
(disk_conf.py:219, 224-227): set from the prompt only when the filesystem is
Btrfs, otherwise false. -/
def using_subvolumes_of (ans : PromptAnswers)
    (filesystem_type : Option FilesystemType) : Bool :=
  resolved_fs ans filesystem_type == .Btrfs && ans.subvolumes_answer

/-- Flag `compression` (disk_conf.py:221, 229-231 and 324, 350-353): set from
the prompt only when the filesystem is Btrfs, otherwise false. -/
def compression_of (ans : PromptAnswers)
    (filesystem_type : Option FilesystemType) : Bool :=
  resolved_fs ans filesystem_type == .Btrfs && ans.compression_answer

/-- Threshold `min_size_to_allow_home_part` (disk_conf.py:217). -/
def min_size_to_allow_home_part : Size := Size.mk 40 .GiB none

/-- Target `root_partition_size` (disk_conf.py:218). -/
def root_partition_size : Size := Size.mk 20 .GiB none

/-- Flag `using_home_partition` of `suggest_single_disk_layout`
(disk_conf.py:220, 249-258): reachable only without subvolumes on a device of
at least 40 GiB; the prompt is consulted when no `separate_home` preference was
passed. -/
def using_home_partition_of (ans : PromptAnswers)
    (filesystem_type : Option FilesystemType) (device : BDevice)
    (separate_home : Option Bool) : Bool :=
  if using_subvolumes_of ans filesystem_type then false
  else if min_size_to_allow_home_part.le device.total_size then
    match separate_home with
    | none => ans.home_answer
    | some b => b
  else false

/-- Root partition start (disk_conf.py:261 and 371): a fixed offset per
firmware mode, independent of the boot partition's own length. -/
def root_start (has_uefi : Bool) : Size :=
  if has_uefi then Size.mk 513 .MiB none else Size.mk 206 .MiB none

/-- Root partition length in the single-disk planner (disk_conf.py:264-267). -/
def single_root_length (ans : PromptAnswers)
    (filesystem_type : Option FilesystemType) (device : BDevice)
    (separate_home : Option Bool) : Size :=
  if using_subvolumes_of ans filesystem_type
      || !(min_size_to_allow_home_part.le device.total_size)
      || !(using_home_partition_of ans filesystem_type device separate_home) then
    Size.percent 100 device.total_size
  else
    Size.min device.total_size root_partition_size

/-- Fixed default Btrfs subvolume set (disk_conf.py:284-290). -/
def default_btrfs_subvols : List SubvolumeModification :=
  [⟨"@", "/"⟩, ⟨"@home", "/home"⟩, ⟨"@log", "/var/log"⟩,
   ⟨"@pkg", "/var/cache/pacman/pkg"⟩, ⟨"@.snapshots", "/.snapshots"⟩]

/-- Root partition of the single-disk planner (disk_conf.py:269-278), with the
subvolume attachment of disk_conf.py:280-291 folded in. -/
def single_root_partition (ans : PromptAnswers) (has_uefi : Bool)
    (device : BDevice) (filesystem_type : Option FilesystemType)
    (separate_home : Option Bool) : PartitionModification :=
  { status := .Create,
    type := .Primary,
    start := root_start has_uefi,
    length := single_root_length ans filesystem_type device separate_home,
    mountpoint := if !(using_subvolumes_of ans filesystem_type)
      then some "/" else none,
    fs_type := resolved_fs ans filesystem_type,
    mount_options := if compression_of ans filesystem_type
      then ["compress=zstd"] else [],
    btrfs_subvols := if using_subvolumes_of ans filesystem_type
      then default_btrfs_subvols else [] }

/-- Home partition of the single-disk planner (disk_conf.py:296-304): its start
is the root partition's *length* (not start plus length), its length 100% of
the device total. -/
def single_home_partition (ans : PromptAnswers) (has_uefi : Bool)
    (device : BDevice) (filesystem_type : Option FilesystemType)
    (separate_home : Option Bool) : PartitionModification :=
  { status := .Create,
    type := .Primary,
    start := (single_root_partition ans has_uefi device filesystem_type
      separate_home).length,
    length := Size.percent 100 device.total_size,
    mountpoint := some "/home",
    fs_type := resolved_fs ans filesystem_type,
    mount_options := if compression_of ans filesystem_type
      then ["compress=zstd"] else [] }

/-- Prompt sequence issued by `suggest_single_disk_layout`, in source order:
filesystem resolution, the two Btrfs prompts, then possibly the separate-home
question (asked only without subvolumes, on a device of at least 40 GiB, when
no preference was passed; disk_conf.py:249-254). -/
def single_disk_events (ans : PromptAnswers)
    (filesystem_type : Option FilesystemType) (device : BDevice)
    (separate_home : Option Bool) : List PromptEvent :=
  (if filesystem_type.isNone then [PromptEvent.askFilesystem] else [])
    ++ (if resolved_fs ans filesystem_type == .Btrfs then
          [PromptEvent.askSubvolumes, PromptEvent.askCompression] else [])
    ++ (if !(using_subvolumes_of ans filesystem_type)
          && min_size_to_allow_home_part.le device.total_size
          && separate_home.isNone then [PromptEvent.askSeparateHome] else [])

/-- Embedding of `suggest_single_disk_layout` (disk_conf.py:208-307): one wiped
device modification holding boot, root and optionally home partitions, paired
with the prompts issued. -/
def suggest_single_disk_layout (ans : PromptAnswers) (has_uefi : Bool)
    (device : BDevice) (filesystem_type : Option FilesystemType)
    (separate_home : Option Bool) : DeviceModification × List PromptEvent :=
  let root_partition := single_root_partition ans has_uefi device
    filesystem_type separate_home
  let partitions :=
    if using_subvolumes_of ans filesystem_type then
      [_boot_partition has_uefi, root_partition]
    else if using_home_partition_of ans filesystem_type device separate_home then
      [_boot_partition has_uefi, root_partition,
       single_home_partition ans has_uefi device filesystem_type separate_home]
    else
      [_boot_partition has_uefi, root_partition]
  (⟨device, true, partitions⟩,
   single_disk_events ans filesystem_type device separate_home)

/-- Threshold `min_home_partition_size` (disk_conf.py:321). -/
def min_home_partition_size : Size := Size.mk 40 .GiB none

/-- Target `desired_root_partition_size` (disk_conf.py:323). -/
def desired_root_partition_size : Size := Size.mk 20 .GiB none

/-- Python's `max(l, key=key)` as its left-to-right loop: keep the current
element unless a strictly larger key appears, so the first maximal element
wins (disk_conf.py:331). -/
def pyMaxBy (key : α → Nat) : List α → Option α
  | [] => none
  | x :: xs => some (xs.foldl (fun cur e => if key cur < key e then e else cur) x)

/-- Candidate pool for `/home` (disk_conf.py:330): devices of at least
40 GiB. -/
def possible_home_devices (devices : List BDevice) : List BDevice :=
  devices.filter (fun x => min_home_partition_size.le x.total_size)

/-- Chosen `/home` device (disk_conf.py:331): the largest of the pool, none if
the pool is empty. -/
def home_device_of (devices : List BDevice) : Option BDevice :=
  pyMaxBy (fun d => d.total_size.toBytes) (possible_home_devices devices)

/-- Guard `device is not home_device` of the loop at disk_conf.py:336 (Python
object identity, rendered as structural inequality, faithful for lists of
pairwise distinct devices); vacuously true when no home device was chosen. -/
def not_home (home_device : Option BDevice) (d : BDevice) : Bool :=
  match home_device with
  | some h => d != h
  | none => true

/-- Association list `devices_delta` (disk_conf.py:334-338): every device other
than the chosen home device, paired with the signed byte delta
`total_size − 20 GiB`. -/
def devices_delta_of (devices : List BDevice) (home_device : Option BDevice) :
    List (BDevice × Int) :=
  (devices.filter (not_home home_device)).map
    (fun d => (d, d.total_size.delta desired_root_partition_size))

/-- Stable insertion of `a` into a list already sorted by `key`: `a` is placed
before the first element of key at least `key a`, so earlier-processed equal
keys stay behind it. -/
def orderedInsertBy (key : α → Int) (a : α) : List α → List α
  | [] => [a]
  | b :: l => if key a ≤ key b then a :: b :: l else b :: orderedInsertBy key a l

/-- Stable ascending sort by `key`, modelling Python's stable `sorted`
(disk_conf.py:340). -/
def pySortedBy (key : α → Int) : List α → List α
  | [] => []
  | b :: l => orderedInsertBy key b (pySortedBy key l)

/-- The list `sorted_delta` (disk_conf.py:340): the delta association list,
stably sorted by delta. -/
def sorted_delta_of (devices : List BDevice) (home_device : Option BDevice) :
    List (BDevice × Int) :=
  pySortedBy (fun p => p.2) (devices_delta_of devices home_device)

/-- Chosen `/root` device: `sorted_delta[0][0]` (disk_conf.py:341); `none`
models the `IndexError` Python raises when `sorted_delta` is empty. -/
def root_device_of (devices : List BDevice) (home_device : Option BDevice) :
    Option BDevice :=
  (sorted_delta_of devices home_device).head?.map Prod.fst

/-- Root-device modification of the multi-disk planner
(disk_conf.py:360, 363-377): wiped, boot partition first, then a root
partition at the fixed per-firmware-mode start covering 100% of the root
device's total size. -/
def multi_root_modification (ans : PromptAnswers) (has_uefi : Bool)
    (filesystem_type : Option FilesystemType) (root_device : BDevice) :
    DeviceModification :=
  ⟨root_device, true,
    [_boot_partition has_uefi,
     { status := .Create,
       type := .Primary,
       start := root_start has_uefi,
       length := Size.percent 100 root_device.total_size,
       mountpoint := some "/",
       fs_type := resolved_fs ans filesystem_type,
       mount_options := if compression_of ans filesystem_type
         then ["compress=zstd"] else [] }]⟩

/-- Home-device modification of the multi-disk planner
(disk_conf.py:361, 379-389): wiped, a single home partition starting at 1 MiB
covering 100% of the home device's total size. -/
def multi_home_modification (ans : PromptAnswers)
    (filesystem_type : Option FilesystemType) (home_device : BDevice) :
    DeviceModification :=
  ⟨home_device, true,
    [{ status := .Create,
       type := .Primary,
       start := Size.mk 1 .MiB none,
       length := Size.percent 100 home_device.total_size,
       mountpoint := some "/home",
       fs_type := resolved_fs ans filesystem_type,
       mount_options := if compression_of ans filesystem_type
         then ["compress=zstd"] else [] }]⟩

/-- Embedding of `suggest_multi_disk_layout` (disk_conf.py:310-391): either the
two-element `[root, home]` modification list, or the empty "no feasible
assignment" list after a capacity advisory, paired with the prompts issued;
`none` models the `IndexError` raised at `sorted_delta[0]` when the root
candidate pool is empty (which Python evaluates before the advisory check). -/
def suggest_multi_disk_layout (ans : PromptAnswers) (has_uefi : Bool)
    (devices : List BDevice) (filesystem_type : Option FilesystemType) :
    Option (List DeviceModification × List PromptEvent) :=
  if devices.isEmpty then some ([], [])
  else
    let fsEvents := if filesystem_type.isNone
      then [PromptEvent.askFilesystem] else []
    let home_device := home_device_of devices
    match root_device_of devices home_device with
    | none => none
    | some root_device =>
      match home_device with
      | none => some ([], fsEvents ++ [PromptEvent.capacityAdvisory])
      | some home_device =>
        let compEvents := if resolved_fs ans filesystem_type == .Btrfs
          then [PromptEvent.askCompression] else []
        some ([multi_root_modification ans has_uefi filesystem_type root_device,
               multi_home_modification ans filesystem_type home_device],
              fsEvents ++ compEvents)

/-- Written from the claim (C1): the first element of `l` attaining the minimal
key — smallest key, first-listed wins ties. -/
def firstMinBy (key : α → Int) : List α → Option α
  | [] => none
  | x :: xs =>
    match firstMinBy key xs with
    | none => some x
    | some y => if key x ≤ key y then some x else some y

/-- Written from the claim (C1): the root candidate pool — all devices except
the chosen home device. -/
def root_candidates (devices : List BDevice) (home_device : Option BDevice) :
    List BDevice :=
  devices.filter (not_home home_device)

/-- Written from the claim (C1): the root choice the claim describes — among
the candidates, the device with the smallest signed delta
`total_size − 20 GiB`, the first-listed device winning ties. -/
def spec_root_choice (devices : List BDevice) (home_device : Option BDevice) :
    Option BDevice :=
  firstMinBy (fun d => d.total_size.delta desired_root_partition_size)
    (root_candidates devices home_device)

theorem orderedInsertBy_ne_nil (key : α → Int) (a : α) (l : List α) :
    orderedInsertBy key a l ≠ [] := by
  cases l with
  | nil => simp [orderedInsertBy]
  | cons b t => simp only [orderedInsertBy]; split <;> simp

theorem pySortedBy_eq_nil_iff (key : α → Int) (l : List α) :
    pySortedBy key l = [] ↔ l = [] := by
  cases l with
  | nil => simp [pySortedBy]
  | cons b t =>
    simp only [pySortedBy]
    exact ⟨fun h => absurd h (orderedInsertBy_ne_nil key b _), fun h => by simp at h⟩

/-- Head of a stable insertion: the inserted element wins exactly when its key
is at most the old head's key. -/
theorem orderedInsertBy_head (key : α → Int) (a b : α) (l : List α) :
    (orderedInsertBy key a (b :: l)).head? =
      some (if key a ≤ key b then a else b) := by
  simp only [orderedInsertBy]
  split <;> simp_all

/-- Head of the stable sort is the first element attaining the minimal key:
this is exactly the tie-break behaviour the spec ascribes to the stable sort
over deltas. -/
theorem pySortedBy_head (key : α → Int) (l : List α) :
    (pySortedBy key l).head? = firstMinBy key l := by
  induction l with
  | nil => rfl
  | cons x xs ih =>
    simp only [pySortedBy, firstMinBy]
    cases h : pySortedBy key xs with
    | nil =>
      rw [h] at ih
      simp only [List.head?_nil] at ih
      rw [← ih]
      simp [orderedInsertBy]
    | cons b t =>
      rw [h] at ih
      simp only [List.head?_cons] at ih
      rw [← ih]
      rw [orderedInsertBy_head]
      split <;> simp [*]

theorem firstMinBy_map (key : β → Int) (f : α → β) (l : List α) :
    firstMinBy key (l.map f) = (firstMinBy (fun a => key (f a)) l).map f := by
  induction l with
  | nil => rfl
  | cons x xs ih =>
    simp only [List.map_cons, firstMinBy, ih]
    cases firstMinBy (fun a => key (f a)) xs with
    | none => rfl
    | some y =>
      simp only [Option.map_some']
      split <;> simp

/-- Properties of the left fold behind `pyMaxBy`: the result is the seed or a
list element, dominates the seed, and dominates every list element. -/
theorem pyFoldMax_spec (key : α → Nat) (l : List α) (init : α) :
    (l.foldl (fun cur e => if key cur < key e then e else cur) init = init ∨
      l.foldl (fun cur e => if key cur < key e then e else cur) init ∈ l) ∧
    key init ≤ key (l.foldl (fun cur e => if key cur < key e then e else cur) init) ∧
    ∀ d ∈ l, key d ≤ key (l.foldl (fun cur e => if key cur < key e then e else cur) init) := by
  induction l generalizing init with
  | nil => simp
  | cons e l ih =>
    simp only [List.foldl_cons]
    by_cases h : key init < key e
    · rw [if_pos h]
      obtain ⟨hm, hini, hall⟩ := ih e
      refine ⟨?_, ?_, ?_⟩
      · cases hm with
        | inl he => exact Or.inr (by rw [he]; exact List.mem_cons_self e l)
        | inr hmem => exact Or.inr (List.mem_cons_of_mem e hmem)
      · exact le_trans (le_of_lt h) hini
      · intro d hd
        cases List.mem_cons.mp hd with
        | inl he => rw [he]; exact hini
        | inr hmem => exact hall d hmem
    · rw [if_neg h]
      obtain ⟨hm, hini, hall⟩ := ih init
      refine ⟨?_, hini, ?_⟩
      · cases hm with
        | inl he => exact Or.inl he
        | inr hmem => exact Or.inr (List.mem_cons_of_mem e hmem)
      · intro d hd
        cases List.mem_cons.mp hd with
        | inl he => rw [he]; exact le_trans (Nat.le_of_not_lt h) hini
        | inr hmem => exact hall d hmem

/-- The Python-`max` model returns a member that dominates every member. -/
theorem pyMaxBy_spec (key : α → Nat) (l : List α) (x : α)
    (h : pyMaxBy key l = some x) : x ∈ l ∧ ∀ d ∈ l, key d ≤ key x := by
  cases l with
  | nil => simp [pyMaxBy] at h
  | cons a t =>
    simp only [pyMaxBy, Option.some.injEq] at h
    obtain ⟨hm, hini, hall⟩ := pyFoldMax_spec key t a
    subst h
    refine ⟨?_, ?_⟩
    · cases hm with
      | inl he => rw [he]; exact List.mem_cons_self a t
      | inr hmem => exact List.mem_cons_of_mem a hmem
    · intro d hd
      cases List.mem_cons.mp hd with
      | inl he => rw [he]; exact hini
      | inr hmem => exact hall d hmem

theorem pyMaxBy_isSome (key : α → Nat) (l : List α) (h : l ≠ []) :
    (pyMaxBy key l).isSome = true := by
  cases l with
  | nil => exact absurd rfl h
  | cons a t => simp [pyMaxBy]

/-- Lists of two or more distinct elements contain, for every `h`, an element
different from `h`. -/
theorem exists_ne_of_two_le_nodup {α : Type _} [DecidableEq α] (l : List α)
    (h2 : 2 ≤ l.length) (hnd : l.Nodup) (h : α) : ∃ x ∈ l, x ≠ h := by
  match l, h2 with
  | a :: b :: t, _ =>
    have hab : a ≠ b := by
      have := List.nodup_cons.mp hnd
      exact fun he => this.1 (he ▸ List.mem_cons_self b t)
    by_cases ha : a = h
    · exact ⟨b, List.mem_cons_of_mem a (List.mem_cons_self b t),
        fun hb => hab (ha.trans hb.symm)⟩
    · exact ⟨a, List.mem_cons_self a _, ha⟩

/-- Fixture device of 10 GiB, below the 40 GiB home threshold. -/
def devSmall : BDevice := ⟨"/dev/sda", Size.mk 10 .GiB none⟩

/-- Fixture device of 45 GiB, above the 40 GiB home threshold. -/
def devMid : BDevice := ⟨"/dev/sdb", Size.mk 45 .GiB none⟩

/-- Fixture device of 60 GiB, the largest fixture. -/
def devBig : BDevice := ⟨"/dev/sdc", Size.mk 60 .GiB none⟩

/-- Fixture device list of the spec's §8 multi-disk example. -/
def devTrio : List BDevice := [devSmall, devMid, devBig]

/-- Fixture answers for an ext4 run (no subvolumes, no compression, home
accepted). -/
def ansExt : PromptAnswers := ⟨.Ext4, false, false, true⟩

/-- Fixture answers for a Btrfs run accepting subvolumes and compression. -/
def ansBtr : PromptAnswers := ⟨.Btrfs, true, true, true⟩

/-- Claim C5: every planner path that creates a boot partition puts it first in
its device modification, and that partition has start 1 MiB and length 512 MiB
under UEFI, start 3 MiB and length 203 MiB under legacy BIOS, filesystem type
FAT32, mountpoint `/boot`, and the boot flag set. -/
theorem C5_boot_partition_policy (ans : PromptAnswers) (has_uefi : Bool)
    (device : BDevice) (filesystem_type : Option FilesystemType)
    (separate_home : Option Bool) (root_device : BDevice) :
    (suggest_single_disk_layout ans has_uefi device filesystem_type
        separate_home).1.partitions.head? = some (_boot_partition has_uefi) ∧
    (multi_root_modification ans has_uefi filesystem_type
        root_device).partitions.head? = some (_boot_partition has_uefi) ∧
    (_boot_partition has_uefi).start
      = (if has_uefi then Size.mk 1 .MiB none else Size.mk 3 .MiB none) ∧
    (_boot_partition has_uefi).length
      = (if has_uefi then Size.mk 512 .MiB none else Size.mk 203 .MiB none) ∧
    (_boot_partition has_uefi).fs_type = .Fat32 ∧
    (_boot_partition has_uefi).mountpoint = some "/boot" ∧
    (_boot_partition has_uefi).flags = [.Boot] := by
  refine ⟨?_, rfl, ?_, ?_, rfl, rfl, rfl⟩
  · simp only [suggest_single_disk_layout]
    split
    · rfl
    · split <;> rfl
  · cases has_uefi <;> rfl
  · cases has_uefi <;> rfl

/-- Claim C3: in both planners the root partition sits at index 1 of the root
device's modification and starts at the fixed per-firmware-mode offset
(513 MiB under UEFI, 206 MiB under BIOS); in the single-disk planner its
length is a 100-`Percent` size resolved against the device total when
subvolumes are used, or the device is below 40 GiB, or no separate home was
chosen, and otherwise is the minimum of the device total and the 20 GiB
target. -/
theorem C3_root_partition_geometry (ans : PromptAnswers) (has_uefi : Bool)
    (device : BDevice) (filesystem_type : Option FilesystemType)
    (separate_home : Option Bool) (root_device : BDevice) :
    (suggest_single_disk_layout ans has_uefi device filesystem_type
        separate_home).1.partitions.get? 1
      = some (single_root_partition ans has_uefi device filesystem_type
          separate_home) ∧
    (single_root_partition ans has_uefi device filesystem_type
        separate_home).start
      = (if has_uefi then Size.mk 513 .MiB none else Size.mk 206 .MiB none) ∧
    (single_root_partition ans has_uefi device filesystem_type
        separate_home).length
      = (if using_subvolumes_of ans filesystem_type
            || !(min_size_to_allow_home_part.le device.total_size)
            || !(using_home_partition_of ans filesystem_type device separate_home)
         then Size.percent 100 device.total_size
         else Size.min device.total_size root_partition_size) ∧
    ((multi_root_modification ans has_uefi filesystem_type
        root_device).partitions.get? 1).map (fun p => p.start)
      = some (if has_uefi then Size.mk 513 .MiB none
              else Size.mk 206 .MiB none) := by
  refine ⟨?_, ?_, rfl, ?_⟩
  · simp only [suggest_single_disk_layout]
    split
    · rfl
    · split <;> rfl
  · cases has_uefi <;> rfl
  · cases has_uefi <;> rfl

/-- Claim C6: whenever subvolumes are selected, the single-disk planner's root
partition carries exactly the five fixed subvolume modifications
`@→/`, `@home→/home`, `@log→/var/log`, `@pkg→/var/cache/pacman/pkg`,
`@.snapshots→/.snapshots`, and its own mountpoint is unset. -/
theorem C6_subvolume_layout (ans : PromptAnswers) (has_uefi : Bool)
    (device : BDevice) (filesystem_type : Option FilesystemType)
    (separate_home : Option Bool)
    (hsub : using_subvolumes_of ans filesystem_type = true) :
    ∃ root,
      (suggest_single_disk_layout ans has_uefi device filesystem_type
          separate_home).1.partitions.get? 1 = some root ∧
      root.btrfs_subvols =
        [⟨"@", "/"⟩, ⟨"@home", "/home"⟩, ⟨"@log", "/var/log"⟩,
         ⟨"@pkg", "/var/cache/pacman/pkg"⟩, ⟨"@.snapshots", "/.snapshots"⟩] ∧
      root.btrfs_subvols.length = 5 ∧
      root.mountpoint = none := by
  refine ⟨single_root_partition ans has_uefi device filesystem_type
    separate_home, ?_, ?_, ?_, ?_⟩
  · simp only [suggest_single_disk_layout, hsub]
    rfl
  · simp [single_root_partition, hsub, default_btrfs_subvols]
  · simp [single_root_partition, hsub, default_btrfs_subvols]
  · simp [single_root_partition, hsub]

/-- Concrete instantiation of claim C6: Btrfs with subvolumes accepted on the
45 GiB fixture device. -/
theorem C6_subvolume_layout_witness :
    using_subvolumes_of ansBtr none = true ∧
    ∃ root,
      (suggest_single_disk_layout ansBtr true devMid none
          none).1.partitions.get? 1 = some root ∧
      root.btrfs_subvols =
        [⟨"@", "/"⟩, ⟨"@home", "/home"⟩, ⟨"@log", "/var/log"⟩,
         ⟨"@pkg", "/var/cache/pacman/pkg"⟩, ⟨"@.snapshots", "/.snapshots"⟩] ∧
      root.btrfs_subvols.length = 5 ∧
      root.mountpoint = none :=
  ⟨by decide, C6_subvolume_layout ansBtr true devMid none none (by decide)⟩

/-- Claim C2: on a device of at least 40 GiB, without subvolumes and with a
separate home chosen, the single-disk planner appends a home partition whose
start equals the root partition's length (strictly below root start plus root
length), whose length is a 100-`Percent` size resolved against the device
total, and whose mountpoint is `/home`. -/
theorem C2_single_disk_home_partition (ans : PromptAnswers) (has_uefi : Bool)
    (device : BDevice) (filesystem_type : Option FilesystemType)
    (hsize : min_size_to_allow_home_part.le device.total_size = true)
    (hsub : using_subvolumes_of ans filesystem_type = false) :
    ∃ root home,
      (suggest_single_disk_layout ans has_uefi device filesystem_type
        (some true)).1.partitions = [_boot_partition has_uefi, root, home] ∧
      home.start = root.length ∧
      home.start.toBytes < root.start.toBytes + root.length.toBytes ∧
      home.length = Size.percent 100 device.total_size ∧
      home.mountpoint = some "/home" := by
  refine ⟨single_root_partition ans has_uefi device filesystem_type (some true),
    single_home_partition ans has_uefi device filesystem_type (some true),
    ?_, rfl, ?_, rfl, rfl⟩
  · have hhome : using_home_partition_of ans filesystem_type device
        (some true) = true := by
      simp [using_home_partition_of, hsub, hsize]
    simp only [suggest_single_disk_layout, hsub, hhome]
    rfl
  · have h0 : 0 < (root_start has_uefi).toBytes := by
      cases has_uefi <;> decide
    have hs : (single_home_partition ans has_uefi device filesystem_type
        (some true)).start.toBytes
        = (single_root_partition ans has_uefi device filesystem_type
            (some true)).length.toBytes := rfl
    rw [hs]
    exact Nat.lt_add_of_pos_left h0

/-- Concrete instantiation of claim C2: ext4 with separate home on the 45 GiB
fixture device. -/
theorem C2_single_disk_home_partition_witness :
    min_size_to_allow_home_part.le devMid.total_size = true ∧
    using_subvolumes_of ansExt (some .Ext4) = false ∧
    ∃ root home,
      (suggest_single_disk_layout ansExt true devMid (some .Ext4)
        (some true)).1.partitions = [_boot_partition true, root, home] ∧
      home.start = root.length ∧
      home.start.toBytes < root.start.toBytes + root.length.toBytes ∧
      home.length = Size.percent 100 devMid.total_size ∧
      home.mountpoint = some "/home" :=
  ⟨by decide, by decide,
   C2_single_disk_home_partition ansExt true devMid (some .Ext4)
     (by decide) (by decide)⟩

/-- Claim C4: on a device below 40 GiB, the single-disk planner never issues
the separate-home question and never produces a `/home` partition, whatever
separate-home preference was supplied, and the root partition's length is a
100-`Percent` size resolved against the device total. -/
theorem C4_small_device_no_home (ans : PromptAnswers) (has_uefi : Bool)
    (device : BDevice) (filesystem_type : Option FilesystemType)
    (separate_home : Option Bool)
    (hsize : min_size_to_allow_home_part.le device.total_size = false) :
    PromptEvent.askSeparateHome ∉
      (suggest_single_disk_layout ans has_uefi device filesystem_type
        separate_home).2 ∧
    (∀ p ∈ (suggest_single_disk_layout ans has_uefi device filesystem_type
        separate_home).1.partitions, p.mountpoint ≠ some "/home") ∧
    ((suggest_single_disk_layout ans has_uefi device filesystem_type
        separate_home).1.partitions.get? 1).map (fun p => p.length)
      = some (Size.percent 100 device.total_size) := by
  have hhome : using_home_partition_of ans filesystem_type device
      separate_home = false := by
    simp only [using_home_partition_of, hsize]
    split <;> rfl
  have hparts : (suggest_single_disk_layout ans has_uefi device filesystem_type
      separate_home).1.partitions
      = [_boot_partition has_uefi,
         single_root_partition ans has_uefi device filesystem_type
           separate_home] := by
    simp only [suggest_single_disk_layout, hhome]
    split <;> rfl
  refine ⟨?_, ?_, ?_⟩
  · simp only [suggest_single_disk_layout, single_disk_events, hsize,
      Bool.and_false, Bool.false_and, if_false, List.append_nil]
    intro hmem
    rcases List.mem_append.mp hmem with h | h
    · split at h <;> simp_all
    · split at h <;> simp_all
  · rw [hparts]
    intro p hp
    rcases List.mem_cons.mp hp with h | h
    · rw [h]; simp [_boot_partition]
    · rcases List.mem_cons.mp h with h2 | h2
      · rw [h2]
        simp only [single_root_partition]
        split <;> simp
      · simp at h2
  · rw [hparts]
    simp only [List.get?, Option.map_some']
    have : single_root_length ans filesystem_type device separate_home
        = Size.percent 100 device.total_size := by
      simp [single_root_length, hsize]
    simp [single_root_partition, this]

/-- Concrete instantiation of claim C4: the 10 GiB fixture device with a
separate-home preference of `true` supplied. -/
theorem C4_small_device_no_home_witness :
    min_size_to_allow_home_part.le devSmall.total_size = false ∧
    PromptEvent.askSeparateHome ∉
      (suggest_single_disk_layout ansExt true devSmall (some .Ext4)
        (some true)).2 ∧
    ((suggest_single_disk_layout ansExt true devSmall (some .Ext4)
        (some true)).1.partitions.get? 1).map (fun p => p.length)
      = some (Size.percent 100 devSmall.total_size) :=
  ⟨by decide,
   (C4_small_device_no_home ansExt true devSmall (some .Ext4) (some true)
     (by decide)).1,
   (C4_small_device_no_home ansExt true devSmall (some .Ext4) (some true)
     (by decide)).2.2⟩

/-- Claim C8: every device modification either planner produces has
`wipe = true`: the single modification of the single-disk planner, and every
modification in any successful multi-disk result. -/
theorem C8_always_wipe (ans : PromptAnswers) (has_uefi : Bool)
    (device : BDevice) (devices : List BDevice)
    (ft1 ft2 : Option FilesystemType) (separate_home : Option Bool) :
    (suggest_single_disk_layout ans has_uefi device ft1
        separate_home).1.wipe = true ∧
    (∀ mods events,
      suggest_multi_disk_layout ans has_uefi devices ft2 = some (mods, events) →
      ∀ m ∈ mods, m.wipe = true) := by
  refine ⟨rfl, ?_⟩
  intro mods events heq m hm
  simp only [suggest_multi_disk_layout] at heq
  split at heq
  · rw [Option.some_inj, Prod.mk.injEq] at heq
    rw [← heq.1] at hm
    simp at hm
  · split at heq
    · exact absurd heq (by simp)
    · split at heq
      · rw [Option.some_inj, Prod.mk.injEq] at heq
        rw [← heq.1] at hm
        simp at hm
      · rw [Option.some_inj, Prod.mk.injEq] at heq
        rw [← heq.1] at hm
        rcases List.mem_cons.mp hm with h | h
        · rw [h]; rfl
        · rcases List.mem_cons.mp h with h2 | h2
          · rw [h2]; rfl
          · simp at h2

/-- Concrete instantiation of claim C8: the multi-disk plan for the fixture
trio wipes both of its device modifications. -/
theorem C8_always_wipe_witness :
    (multi_root_modification ansExt true (some FilesystemType.Ext4)
        devSmall).wipe = true ∧
    (multi_home_modification ansExt (some FilesystemType.Ext4)
        devBig).wipe = true := by
  have h := (C8_always_wipe ansExt true devSmall devTrio
    (some FilesystemType.Ext4) (some FilesystemType.Ext4) none).2
    [multi_root_modification ansExt true (some FilesystemType.Ext4) devSmall,
     multi_home_modification ansExt (some FilesystemType.Ext4) devBig]
    [] (by decide)
  exact ⟨h _ (by simp), h _ (by simp)⟩

/-- Claim C9: the root and home partitions of both planners carry mount
options `["compress=zstd"]` exactly when compression was requested and `[]`
otherwise; the boot partition always carries `[]`; and compression is only
ever requested when the resolved filesystem type is Btrfs. -/
theorem C9_mount_options (ans : PromptAnswers) (has_uefi : Bool)
    (device : BDevice) (filesystem_type : Option FilesystemType)
    (separate_home : Option Bool) (root_device home_device : BDevice) :
    (∀ p ∈ ((suggest_single_disk_layout ans has_uefi device filesystem_type
        separate_home).1.partitions.drop 1),
      p.mount_options = if compression_of ans filesystem_type
        then ["compress=zstd"] else []) ∧
    (_boot_partition has_uefi).mount_options = [] ∧
    (∀ p ∈ ((multi_root_modification ans has_uefi filesystem_type
        root_device).partitions.drop 1),
      p.mount_options = if compression_of ans filesystem_type
        then ["compress=zstd"] else []) ∧
    (∀ p ∈ (multi_home_modification ans filesystem_type
        home_device).partitions,
      p.mount_options = if compression_of ans filesystem_type
        then ["compress=zstd"] else []) ∧
    (compression_of ans filesystem_type = true →
      resolved_fs ans filesystem_type = .Btrfs) := by
  refine ⟨?_, rfl, ?_, ?_, ?_⟩
  · have hparts : ((suggest_single_disk_layout ans has_uefi device
        filesystem_type separate_home).1.partitions.drop 1)
        = (suggest_single_disk_layout ans has_uefi device filesystem_type
            separate_home).1.partitions.drop 1 := rfl
    simp only [suggest_single_disk_layout]
    split
    · intro p hp
      simp only [List.drop_succ_cons, List.drop_zero] at hp
      rcases List.mem_singleton.mp hp with h
      rw [h]; rfl
    · split
      · intro p hp
        simp only [List.drop_succ_cons, List.drop_zero] at hp
        rcases List.mem_cons.mp hp with h | h
        · rw [h]; rfl
        · rcases List.mem_singleton.mp h with h2
          rw [h2]; rfl
      · intro p hp
        simp only [List.drop_succ_cons, List.drop_zero] at hp
        rcases List.mem_singleton.mp hp with h
        rw [h]; rfl
  · intro p hp
    simp only [multi_root_modification, List.drop_succ_cons,
      List.drop_zero] at hp
    rcases List.mem_singleton.mp hp with h
    rw [h]
  · intro p hp
    simp only [multi_home_modification] at hp
    rcases List.mem_singleton.mp hp with h
    rw [h]
  · intro hc
    simp only [compression_of, Bool.and_eq_true, beq_iff_eq] at hc
    exact hc.1

/-- Concrete instantiation of claim C9: with Btrfs answers, compression was
requested, so the resolved filesystem is Btrfs. -/
theorem C9_mount_options_witness : resolved_fs ansBtr none = .Btrfs :=
  (C9_mount_options ansBtr true devMid none none devSmall
    devBig).2.2.2.2 (by decide)

/-- Fixture device of 20 GiB, below the 40 GiB home threshold. -/
def devTiny : BDevice := ⟨"/dev/sdd", Size.mk 20 .GiB none⟩

/-- Refinement: the source's root selection (head of the stable sort over the
delta association list) equals the claim's description (first candidate with
the smallest signed delta). -/
theorem root_device_of_eq_spec (devices : List BDevice)
    (home_device : Option BDevice) :
    root_device_of devices home_device
      = spec_root_choice devices home_device := by
  rw [root_device_of, sorted_delta_of, pySortedBy_head, devices_delta_of,
    firstMinBy_map, spec_root_choice, root_candidates, Option.map_map]
  have hcomp : (Prod.fst ∘ fun d : BDevice =>
      (d, d.total_size.delta desired_root_partition_size)) = id := rfl
  rw [hcomp, Option.map_id]
  rfl

/-- Claim C1: for a list of two or more pairwise-distinct devices, the
multi-disk planner selects as home device a largest member of the
at-least-40 GiB pool (and none when that pool is empty), and selects as root
device — among all devices except the chosen home device — the first-listed
device with the smallest signed delta `total_size − 20 GiB`, the stable-sort
tie-break. -/
theorem C1_multi_disk_selection (devices : List BDevice)
    (h2 : 2 ≤ devices.length) (hnd : devices.Nodup) :
    (possible_home_devices devices = [] → home_device_of devices = none) ∧
    (∀ h, home_device_of devices = some h →
      h ∈ possible_home_devices devices ∧
      ∀ d ∈ possible_home_devices devices,
        d.total_size.toBytes ≤ h.total_size.toBytes) ∧
    (possible_home_devices devices ≠ [] →
      (home_device_of devices).isSome = true) ∧
    root_device_of devices (home_device_of devices)
      = spec_root_choice devices (home_device_of devices) := by
  refine ⟨?_, ?_, ?_, root_device_of_eq_spec devices (home_device_of devices)⟩
  · intro hp
    rw [home_device_of, hp]
    rfl
  · intro h hh
    exact pyMaxBy_spec _ _ _ hh
  · intro hp
    exact pyMaxBy_isSome _ _ hp

/-- Concrete instantiation of claim C1 at the spec's §8 example devices
(10 GiB, 45 GiB, 60 GiB). -/
theorem C1_multi_disk_selection_witness :
    2 ≤ devTrio.length ∧ devTrio.Nodup ∧
    root_device_of devTrio (home_device_of devTrio)
      = spec_root_choice devTrio (home_device_of devTrio) :=
  ⟨by decide, by decide,
   (C1_multi_disk_selection devTrio (by decide) (by decide)).2.2.2⟩

/-- Claim C7: when every device of a two-or-more-element list is below 40 GiB,
the multi-disk planner returns the empty list (no exception) after issuing
exactly one capacity-advisory call. -/
theorem C7_all_small_advisory (ans : PromptAnswers) (has_uefi : Bool)
    (devices : List BDevice) (filesystem_type : Option FilesystemType)
    (h2 : 2 ≤ devices.length)
    (hsmall : ∀ d ∈ devices,
      min_home_partition_size.le d.total_size = false) :
    suggest_multi_disk_layout ans has_uefi devices filesystem_type
      = some ([],
          (if filesystem_type.isNone then [PromptEvent.askFilesystem] else [])
            ++ [PromptEvent.capacityAdvisory]) ∧
    ((if filesystem_type.isNone then [PromptEvent.askFilesystem] else [])
        ++ [PromptEvent.capacityAdvisory]).count
      PromptEvent.capacityAdvisory = 1 := by
  have hpool : possible_home_devices devices = [] := by
    rw [possible_home_devices, List.filter_eq_nil]
    intro a ha
    simp [hsmall a ha]
  have hhome : home_device_of devices = none := by
    rw [home_device_of, hpool]
    rfl
  have hne : devices ≠ [] := by
    intro h
    rw [h] at h2
    simp at h2
  have hie : devices.isEmpty = false := by
    cases devices with
    | nil => exact absurd rfl hne
    | cons a t => rfl
  have hfil : devices.filter (not_home none) = devices :=
    List.filter_eq_self.mpr (fun a _ => rfl)
  have hsne : sorted_delta_of devices none ≠ [] := by
    rw [sorted_delta_of, Ne, pySortedBy_eq_nil_iff, devices_delta_of, hfil,
      List.map_eq_nil]
    exact hne
  obtain ⟨p, t, hpt⟩ : ∃ p t, sorted_delta_of devices none = p :: t := by
    cases hsd : sorted_delta_of devices none with
    | nil => exact absurd hsd hsne
    | cons p t => exact ⟨p, t, rfl⟩
  have hroot : root_device_of devices none = some p.1 := by
    rw [root_device_of, hpt]
    rfl
  refine ⟨?_, ?_⟩
  · rw [suggest_multi_disk_layout]
    simp only [hie, Bool.false_eq_true, if_false, hhome, hroot]
  · cases filesystem_type <;> rfl

/-- Concrete instantiation of claim C7: two fixture devices of 10 GiB and
20 GiB. -/
theorem C7_all_small_advisory_witness :
    2 ≤ ([devSmall, devTiny] : List BDevice).length ∧
    suggest_multi_disk_layout ansExt true [devSmall, devTiny]
        (some FilesystemType.Ext4)
      = some ([],
          (if (some FilesystemType.Ext4 : Option FilesystemType).isNone
            then [PromptEvent.askFilesystem] else [])
            ++ [PromptEvent.capacityAdvisory]) ∧
    ((if (some FilesystemType.Ext4 : Option FilesystemType).isNone
        then [PromptEvent.askFilesystem] else [])
        ++ [PromptEvent.capacityAdvisory]).count
      PromptEvent.capacityAdvisory = 1 :=
  ⟨by decide,
   (C7_all_small_advisory ansExt true [devSmall, devTiny]
     (some FilesystemType.Ext4) (by decide) (by decide)).1,
   (C7_all_small_advisory ansExt true [devSmall, devTiny]
     (some FilesystemType.Ext4) (by decide) (by decide)).2⟩

/-- Claim C10: a singleton list whose single device is at least 40 GiB leaves
the root candidate pool empty and the planner hits the `sorted_delta[0]` index
error (modelled as `none`) instead of returning the empty no-suggestion
result; on two or more pairwise-distinct devices the planner always returns a
value, and on the empty list it returns the empty result without any advisory
call. -/
theorem C10_singleton_root_pool_error (ans : PromptAnswers) (has_uefi : Bool)
    (d : BDevice) (devices : List BDevice)
    (ft1 ft2 ft3 : Option FilesystemType)
    (hbig : min_home_partition_size.le d.total_size = true)
    (h2 : 2 ≤ devices.length) (hnd : devices.Nodup) :
    suggest_multi_disk_layout ans has_uefi [d] ft1 = none ∧
    (suggest_multi_disk_layout ans has_uefi devices ft2).isSome = true ∧
    suggest_multi_disk_layout ans has_uefi [] ft3 = some ([], []) := by
  refine ⟨?_, ?_, rfl⟩
  · have hhome : home_device_of [d] = some d := by
      rw [home_device_of, possible_home_devices]
      simp [List.filter, hbig, pyMaxBy]
    have hroot : root_device_of [d] (some d) = none := by
      rw [root_device_of, sorted_delta_of, devices_delta_of]
      simp [pySortedBy, not_home, List.filter]
    rw [suggest_multi_disk_layout]
    simp [hhome, hroot]
  · have hne : devices ≠ [] := by
      intro h
      rw [h] at h2
      simp at h2
    have hie : devices.isEmpty = false := by
      cases devices with
      | nil => exact absurd rfl hne
      | cons a t => rfl
    have hroot : ∃ r, root_device_of devices (home_device_of devices)
        = some r := by
      have hdne : devices_delta_of devices (home_device_of devices) ≠ [] := by
        cases hh : home_device_of devices with
        | none =>
          have hfil : devices.filter (not_home none) = devices :=
            List.filter_eq_self.mpr (fun a _ => rfl)
          rw [devices_delta_of, hfil, Ne, List.map_eq_nil]
          exact hne
        | some h =>
          obtain ⟨x, hx, hxh⟩ := exists_ne_of_two_le_nodup devices h2 hnd h
          rw [devices_delta_of, Ne, List.map_eq_nil]
          intro hcon
          have hmem : x ∈ devices.filter (not_home (some h)) := by
            rw [List.mem_filter]
            exact ⟨hx, by simp [not_home, hxh]⟩
          rw [hcon] at hmem
          simp at hmem
      have hsne : sorted_delta_of devices (home_device_of devices) ≠ [] := by
        rw [sorted_delta_of, Ne, pySortedBy_eq_nil_iff]
        exact hdne
      cases hsd : sorted_delta_of devices (home_device_of devices) with
      | nil => exact absurd hsd hsne
      | cons p t =>
        refine ⟨p.1, ?_⟩
        rw [root_device_of, hsd]
        rfl
    obtain ⟨r, hr⟩ := hroot
    rw [suggest_multi_disk_layout]
    simp only [hie, Bool.false_eq_true, if_false, hr]
    cases hh : home_device_of devices <;> simp

/-- Concrete instantiation of claim C10: a singleton 45 GiB device errors,
while the fixture trio succeeds. -/
theorem C10_singleton_root_pool_error_witness :
    min_home_partition_size.le devMid.total_size = true ∧
    suggest_multi_disk_layout ansExt true [devMid] none = none ∧
    (suggest_multi_disk_layout ansExt true devTrio none).isSome = true :=
  ⟨by decide,
   (C10_singleton_root_pool_error ansExt true devMid devTrio none none none
     (by decide) (by decide) (by decide)).1,
   (C10_singleton_root_pool_error ansExt true devMid devTrio none none none
     (by decide) (by decide) (by decide)).2.1⟩

end Disk
